import Mathlib

/-!
Verification of the Dynamic Pricing Agent repository.

Frontend utilities (the A/B assignment hash, the analytics flush queue and
the revenue-lift calculator) are embedded directly from the JavaScript and
TypeScript sources; JavaScript numbers are modelled as rationals and JS
32-bit bitwise operations as explicit wrapping on integers.

The Python backend core (demand forecaster, pricing policy, retraining
coordinator) ships as a separate service whose source is not part of this
repository checkout; those components are modelled from the specification
(definitions marked `Modelled from the spec:`).
-/

/-! ### Shared arithmetic helpers -/

/-- Clamp a rational into the interval `[lo, hi]`. -/
def clamp (lo hi x : ℚ) : ℚ := max lo (min x hi)

/-! ### A/B assignment (embedded from `ABTestManager` in the tracking utility)

The JavaScript `hashString` folds over the character codes of the string,
computing `hash = ((hash << 5) - hash) + char` followed by `hash = hash & hash`,
which coerces the value to a signed 32-bit integer, and finally takes
`Math.abs`.  `<<` itself also operates on signed 32-bit integers. -/

/-- Wrap an integer to the signed 32-bit range, as JS bitwise operators do. -/
def toInt32 (n : ℤ) : ℤ :=
  let m := n % 4294967296
  if m < 2147483648 then m else m - 4294967296

/-- One step of the JS string hash: `hash = ((hash << 5) - hash) + char`
coerced to a signed 32-bit integer. -/
def hashStep (h : ℤ) (c : ℕ) : ℤ := toInt32 (toInt32 (h * 32) - h + c)

/-- Embeds `ABTestManager.hashString`: fold `hashStep` over the character
codes, then `Math.abs`. -/
def hashString (s : String) : ℕ :=
  ((s.data.map Char.toNat).foldl hashStep 0).natAbs

/-- Embeds the per-test record held in `ABTestManager.currentTests`. -/
structure ABTest where
  id : String
  traffic_split : ℚ
  status : String

/-- Embeds `ABTestManager.getUserVariant`: unknown or inactive tests fall back
to `"control"`; otherwise the normalized hash of `userId + testId` is compared
against the traffic split. -/
def getUserVariant (tests : String → Option ABTest) (testId userId : String) :
    String :=
  match tests testId with
  | none => "control"
  | some t =>
      if t.status ≠ "active" then "control"
      else if ((hashString (userId ++ testId) % 10000 : ℕ) : ℚ) / 10000
                < t.traffic_split then "test"
      else "control"

/-- Embeds the demo test table installed by `ABTestManager.loadActiveTests`:
a single active test `pricing_strategy` with a 0.5 traffic split. -/
def demoTests : String → Option ABTest := fun tid =>
  if tid = "pricing_strategy" then
    some { id := "pricing_strategy_v1", traffic_split := 1/2, status := "active" }
  else none

/-- The assignment actually used by the demo front end. -/
def getUserVariantDemo (testId userId : String) : String :=
  getUserVariant demoTests testId userId

/-! ### Analytics flush (embedded from `AnalyticsTracker.flush`)

`flush` returns immediately when the queue is empty.  Otherwise it snapshots
the queue, clears it, and attempts the send; on failure it `unshift`s the
snapshot back in front of whatever was appended in the meantime.  The model
makes the events appended during the send and the success of the send
explicit parameters and returns the queue after the call. -/

def flushResult {α : Type} (queue during : List α) (sendOk : Bool) : List α :=
  if queue.isEmpty then queue
  else if sendOk then during
  else queue ++ during

/-! ### Revenue lift calculator (embedded from `RevenueLiftCalculator`)

The `useMemo` computes `staticRevenue = basePrice * 1000`,
`demandAdjustment = 1 - elasticity * 0.1`,
`dynamicRevenue = basePrice * 1000 * demandAdjustment * marketMultiplier` and
`improvement = ((dynamicRevenue - staticRevenue) / staticRevenue) * 100`.
JS numbers are modelled as rationals. -/

structure RevenueComparison where
  staticRevenue : ℚ
  dynamicRevenue : ℚ
  improvement : ℚ

def revenueComparison (basePrice elasticity marketMultiplier : ℚ) :
    RevenueComparison :=
  let staticRevenue := basePrice * 1000
  let demandAdjustment := 1 - elasticity * (1/10)
  let dynamicRevenue := basePrice * 1000 * demandAdjustment * marketMultiplier
  { staticRevenue := staticRevenue
    dynamicRevenue := dynamicRevenue
    improvement := (dynamicRevenue - staticRevenue) / staticRevenue * 100 }

/-! ### The pricing core, modelled from the specification

The Python backend implementing the demand forecaster, the RL pricing policy
and the retraining coordinator is deployed as a separate service and its
source is not in this checkout; the repository ships only its callers
(the React dashboards), its configuration (`MODEL_UPDATE_THRESHOLD: "100"` in
the deployment manifest) and its API documentation.  The definitions below
are therefore modelled from the specification, faithful to its words, with
real-valued quantities as rationals. -/

namespace PricingCore

/-- Modelled from the spec: the tunable configuration of the core — price
bounds and per-step bound for the policy (§4.3/§4.4), the demand clip cap
(§4.2), the retraining feedback threshold and validation tolerance (§4.5),
and the reference point of the deterministic fallback heuristic (§4.2). -/
structure Config where
  min_price : ℚ
  max_price : ℚ
  max_step : ℚ
  demand_cap : ℚ
  threshold : ℕ
  tolerance : ℚ
  ref_price : ℚ
  ref_demand : ℚ
  elasticity : ℚ

/-- Modelled from the spec: a trained forecaster artifact — a version and the
raw (unclipped) learned demand function of candidate price and encoded
context. -/
structure ForecasterArtifact where
  version : ℕ
  raw : ℚ → ℚ → ℚ

/-- Modelled from the spec: a trained policy artifact — a version and the raw
(unclamped) learned pricing function of base price and encoded context. -/
structure PolicyArtifact where
  version : ℕ
  raw : ℚ → ℚ → ℚ

/-- Modelled from the spec (§9): `ModelState = Loaded(artifact) | Fallback`. -/
inductive ModelState (α : Type) : Type where
  | loaded (artifact : α)
  | fallback

/-- Modelled from the spec (§3): the states of the Retraining Coordinator. -/
inductive CoordStatus : Type where
  | idle
  | training
  | validating
  | promoting
  | rolled_back
deriving DecidableEq

/-- Modelled from the spec (§3): the process-wide mutable state — the active
artifacts behind the atomically swapped pointer, the retraining counters and
the coordinator status. -/
structure ServerState where
  forecaster : ModelState ForecasterArtifact
  policy : ModelState PolicyArtifact
  pending_feedback_count : ℕ
  last_retrain_at : ℕ
  active_score : ℚ
  status : CoordStatus

/-- The model version pair (forecaster, policy) observed by inference;
`none` when the corresponding artifact is absent (fallback mode). -/
def modelVersion (s : ServerState) : Option ℕ × Option ℕ :=
  ( match s.forecaster with
    | .loaded a => some a.version
    | .fallback => none
  , match s.policy with
    | .loaded a => some a.version
    | .fallback => none )

/-- Modelled from the spec (§4.2): the raw demand estimate — the learned
function when an artifact is active, otherwise the deterministic linear
elasticity heuristic around the configured reference price. -/
def rawDemand (cfg : Config) (m : ModelState ForecasterArtifact)
    (price ctx : ℚ) : ℚ :=
  match m with
  | .loaded a => a.raw price ctx
  | .fallback =>
      cfg.ref_demand * (1 - cfg.elasticity * (price / cfg.ref_price - 1))

/-- Modelled from the spec (§4.2): `predict` clips the raw output to
`[0, demand_cap]` to prevent runaway extrapolation. -/
def predictDemand (cfg : Config) (m : ModelState ForecasterArtifact)
    (price ctx : ℚ) : ℚ :=
  clamp 0 cfg.demand_cap (rawDemand cfg m price ctx)

/-- Modelled from the spec (§4.4): the raw policy output — the learned
function when an artifact is active, otherwise the identity policy returning
`base_price` unchanged. -/
def rawPolicyPrice (m : ModelState PolicyArtifact) (base ctx : ℚ) : ℚ :=
  match m with
  | .loaded a => a.raw base ctx
  | .fallback => base

/-- Modelled from the spec (§4.3/§4.4): the inference-time safety net around
the raw policy output — the step bound `|Δprice / prev| ≤ max_step` relative
to the previous (or reference) price, followed by the hard clamp to
`[min_price, max_price]` applied regardless of the raw output. -/
def act (cfg : Config) (prev raw : ℚ) : ℚ :=
  clamp cfg.min_price cfg.max_price
    (clamp (prev * (1 - cfg.max_step)) (prev * (1 + cfg.max_step)) raw)

/-- Modelled from the spec (§7): the caller-visible error taxonomy of the
inference path: only `ValidationError` is ever surfaced. -/
inductive ApiError : Type where
  | validation
deriving DecidableEq

/-- Modelled from the spec (§6): response of `predict_demand`. -/
structure DemandResponse where
  predicted_demand : ℚ
  price : ℚ
  model_version : Option ℕ

/-- Modelled from the spec (§3/§6): response of `get_optimal_price`. -/
structure PricingDecision where
  optimal_price : ℚ
  expected_revenue : ℚ
  demand_forecast : ℚ
  model_version : Option ℕ × Option ℕ

/-- Modelled from the spec (§6/§7): the `predict_demand` endpoint — rejects
non-positive prices with `ValidationError`, otherwise serves the clipped
forecast from the active artifact snapshot (or the fallback heuristic). -/
def predict_demand (cfg : Config) (s : ServerState) (price ctx : ℚ) :
    Except ApiError DemandResponse :=
  if price ≤ 0 then .error .validation
  else .ok { predicted_demand := predictDemand cfg s.forecaster price ctx
             price := price
             model_version := (modelVersion s).1 }

/-- Modelled from the spec (§6/§2): the `get_optimal_price` endpoint —
rejects non-positive base prices, otherwise runs the policy on the query
(the base price is the step reference on a cold context), clamps the result,
forecasts demand at the chosen price and reports
`expected_revenue = optimal_price × demand_forecast`. -/
def get_optimal_price (cfg : Config) (s : ServerState) (base ctx : ℚ) :
    Except ApiError PricingDecision :=
  if base ≤ 0 then .error .validation
  else
    let p := act cfg base (rawPolicyPrice s.policy base ctx)
    let d := predictDemand cfg s.forecaster p ctx
    .ok { optimal_price := p
          expected_revenue := p * d
          demand_forecast := d
          model_version := modelVersion s }

/-- Modelled from the spec (§4.3): the price trajectory of a sequence of
optimizer calls with correlated contexts — each decision is the safety-net
output for the raw policy value, with the previous decision as reference. -/
def decisions (cfg : Config) : ℚ → List ℚ → List ℚ
  | _, [] => []
  | prev, raw :: raws =>
      let p := act cfg prev raw
      p :: decisions cfg p raws

/-- Modelled from the spec (§4.5): the `idle → training` trigger — enough
pending feedback, or a scheduled time boundary, whichever first. -/
def shouldRetrain (cfg : Config) (pending : ℕ) (timeBoundary : Bool) : Bool :=
  decide (cfg.threshold ≤ pending) || timeBoundary

/-- Modelled from the spec (§4.5): one scheduling check of the coordinator:
from `idle` it moves to `training` when the trigger fires; from any other
state the request is a no-op. -/
def schedulingCheck (cfg : Config) (s : ServerState) (timeBoundary : Bool) :
    ServerState :=
  if s.status = .idle ∧
      shouldRetrain cfg s.pending_feedback_count timeBoundary then
    { s with status := .training }
  else s

/-- Modelled from the spec (§4.5/§7): the observable outcome of the training
phase — a `TrainingFailure` (non-convergence, NaN loss, insufficient data) or
a candidate artifact pair with its validation score. -/
inductive TrainOutcome : Type where
  | failure
  | candidate (f : ForecasterArtifact) (p : PolicyArtifact) (score : ℚ)

/-- Modelled from the spec (§4.5): promotion gate — the candidate must not
regress the validation score beyond the configured relative tolerance
(scores are higher-is-better). -/
def candidatePasses (cfg : Config) (activeScore candScore : ℚ) : Bool :=
  decide (activeScore * (1 - cfg.tolerance) ≤ candScore)

/-- Modelled from the spec (§4.5): one complete retraining cycle from `idle`:
on `TrainingFailure` or a regressing candidate the cycle rolls back, leaving
the active artifacts untouched and ending `idle`; on a passing candidate the
active pointer is atomically swapped, the feedback counter reset and
`last_retrain_at` recorded. -/
def runCycle (cfg : Config) (s : ServerState) (o : TrainOutcome) (now : ℕ) :
    ServerState :=
  if s.status ≠ .idle then s
  else
    match o with
    | .failure => { s with status := .idle }
    | .candidate f p score =>
        if candidatePasses cfg s.active_score score then
          { s with forecaster := .loaded f
                   policy := .loaded p
                   active_score := score
                   pending_feedback_count := 0
                   last_retrain_at := now
                   status := .idle }
        else { s with status := .idle }

/-- A retraining cycle whose candidate fails: training itself failed, or the
candidate's validation score regresses beyond tolerance. -/
def cycleFails (cfg : Config) (s : ServerState) (o : TrainOutcome) : Prop :=
  o = .failure ∨
    ∃ f p score, o = .candidate f p score ∧
      candidatePasses cfg s.active_score score = false

/-- A concrete configuration matching the documented deployment: optimizer
bounds `[5, 500]`, `max_step = 0.5`, retraining threshold 100 records,
5% validation tolerance, fallback heuristic referenced at price 25. -/
def exampleCfg : Config :=
  { min_price := 5
    max_price := 500
    max_step := 1/2
    demand_cap := 1000
    threshold := 100
    tolerance := 1/20
    ref_price := 25
    ref_demand := 100
    elasticity := 1 }

/-- A concrete cold-start server state: no artifacts loaded, coordinator
idle, no pending feedback. -/
def fallbackState : ServerState :=
  { forecaster := .fallback
    policy := .fallback
    pending_feedback_count := 0
    last_retrain_at := 0
    active_score := 0
    status := .idle }

end PricingCore

/-! ## Theorems -/

/-! ### Clamp arithmetic -/

theorem le_clamp (lo hi x : ℚ) : lo ≤ clamp lo hi x := le_max_left _ _

theorem clamp_le (lo hi x : ℚ) (h : lo ≤ hi) : clamp lo hi x ≤ hi :=
  max_le h (min_le_right _ _)

theorem le_clamp_of_le (lo hi x b : ℚ) (hx : b ≤ x) (hhi : b ≤ hi) :
    b ≤ clamp lo hi x :=
  le_trans (le_min hx hhi) (le_max_right _ _)

theorem clamp_le_of_le_left (lo hi x b : ℚ) (hlo : lo ≤ b) (hx : x ≤ b) :
    clamp lo hi x ≤ b :=
  max_le hlo (le_trans (min_le_left _ _) hx)

/-! ### C10 — revenue lift calculator -/

theorem revenueComparison_improvement_eq (b e m : ℚ) (hb : 0 < b) :
    (revenueComparison b e m).improvement = 100 * ((1 - e * (1/10)) * m - 1) := by
  have hb1000 : b * 1000 ≠ 0 := by positivity
  unfold revenueComparison
  field_simp
  ring

/-- C10: in `RevenueLiftCalculator`, for every `basePrice > 0` the computed
revenue improvement percentage equals `100 × ((1 − 0.1 × elasticity) ×
marketMultiplier − 1)`; it is independent of `basePrice`; and for
`marketMultiplier = 1` and any `elasticity > 0` it is strictly negative
(while the UI prints it behind a hard-coded `+` sign). -/
theorem c10_revenue_improvement (b e m : ℚ) (hb : 0 < b) :
    (revenueComparison b e m).improvement = 100 * ((1 - e * (1/10)) * m - 1)
    ∧ (∀ b2 : ℚ, 0 < b2 →
        (revenueComparison b e m).improvement
          = (revenueComparison b2 e m).improvement)
    ∧ (0 < e → m = 1 → (revenueComparison b e m).improvement < 0) := by
  refine ⟨revenueComparison_improvement_eq b e m hb, ?_, ?_⟩
  · intro b2 hb2
    rw [revenueComparison_improvement_eq b e m hb,
      revenueComparison_improvement_eq b2 e m hb2]
  · intro he hm
    rw [revenueComparison_improvement_eq b e m hb, hm]
    nlinarith

/-- Concrete run of C10 at `basePrice = 3`, `elasticity = 1`,
`marketMultiplier = 1`: the improvement equals `-10%` and is negative. -/
theorem c10_revenue_improvement_witness :
    (revenueComparison 3 1 1).improvement = 100 * ((1 - 1 * (1/10)) * 1 - 1)
    ∧ (revenueComparison 3 1 1).improvement < 0 := by
  have h := c10_revenue_improvement 3 1 1 (by norm_num)
  exact ⟨h.1, h.2.2 (by norm_num) rfl⟩

/-! ### C9 — analytics flush -/

/-- C9: `AnalyticsTracker.flush` loses no events — an empty queue is left
untouched (for any interleaving and send outcome), and on a failed send every
event pending before the flush is back in the queue, in front of any events
appended during the send. -/
theorem c9_flush_preserves {α : Type} (q d : List α) (ok : Bool) (hq : q ≠ []) :
    flushResult ([] : List α) d ok = []
    ∧ flushResult q d false = q ++ d := by
  constructor
  · simp [flushResult]
  · cases q with
    | nil => exact absurd rfl hq
    | cons a as => simp [flushResult]

/-- Concrete run of C9: an empty queue is unchanged, and a failed send with
pending event `0` and event `1` appended meanwhile leaves queue `[0, 1]`. -/
theorem c9_flush_preserves_witness :
    flushResult ([] : List ℕ) [1] true = []
    ∧ flushResult [0] [1] false = [0] ++ [1] :=
  c9_flush_preserves [0] [1] true (by decide)

/-! ### C8 — A/B assignment -/

theorem getUserVariant_bucket (tests : String → Option ABTest)
    (tid uid : String) :
    getUserVariant tests tid uid = "control"
    ∨ getUserVariant tests tid uid = "test" := by
  unfold getUserVariant
  cases tests tid with
  | none => exact Or.inl rfl
  | some t =>
      by_cases hs : t.status ≠ "active"
      · exact Or.inl (by simp [hs])
      · by_cases hc : ((hashString (uid ++ tid) % 10000 : ℕ) : ℚ) / 10000
            < t.traffic_split
        · exact Or.inr (by simp [hs, hc])
        · exact Or.inl (by simp [hs, hc])

theorem normalized_hash_lt_half (n : ℕ) :
    (((n % 10000 : ℕ) : ℚ) / 10000 < 1/2) ↔ n % 10000 < 5000 := by
  rw [div_lt_iff₀ (by norm_num : (0:ℚ) < 10000)]
  constructor
  · intro h
    have : ((n % 10000 : ℕ) : ℚ) < 5000 := by linarith
    exact_mod_cast this
  · intro h
    have : ((n % 10000 : ℕ) : ℚ) < 5000 := by exact_mod_cast h
    linarith

/-- C8: the A/B assignment used by the demo front end is a deterministic
function of the user id and test id alone — two evaluations agree, every
result is one of the buckets `"control"`/`"test"`, and for the active
`pricing_strategy` test the bucket is exactly the 32-bit JS hash of
`userId + testId` reduced mod 10000 compared against half the range. -/
theorem c8_ab_assignment (tid uid : String) :
    getUserVariantDemo tid uid = getUserVariantDemo tid uid
    ∧ (getUserVariantDemo tid uid = "control"
        ∨ getUserVariantDemo tid uid = "test")
    ∧ getUserVariantDemo "pricing_strategy" uid
        = (if hashString (uid ++ "pricing_strategy") % 10000 < 5000
           then "test" else "control") := by
  refine ⟨rfl, getUserVariant_bucket demoTests tid uid, ?_⟩
  have hd : demoTests "pricing_strategy"
      = some { id := "pricing_strategy_v1", traffic_split := 1/2,
               status := "active" } := by
    simp [demoTests]
  unfold getUserVariantDemo getUserVariant
  rw [hd]
  show (if ("active" : String) ≠ "active" then "control"
        else if ((hashString (uid ++ "pricing_strategy") % 10000 : ℕ) : ℚ)
                  / 10000 < 1/2 then "test" else "control") = _
  rw [if_neg (by simp)]
  exact if_congr (normalized_hash_lt_half _) rfl rfl

/-! ### Pricing core: helper lemmas -/

namespace PricingCore

theorem act_ge_min (cfg : Config) (prev raw : ℚ) :
    cfg.min_price ≤ act cfg prev raw := le_clamp _ _ _

theorem act_le_max (cfg : Config) (prev raw : ℚ)
    (h : cfg.min_price ≤ cfg.max_price) :
    act cfg prev raw ≤ cfg.max_price := clamp_le _ _ _ h

theorem act_step_bounds (cfg : Config) (prev raw : ℚ) (h0 : 0 ≤ prev)
    (hs : 0 ≤ cfg.max_step) (h1 : cfg.min_price ≤ prev)
    (h2 : prev ≤ cfg.max_price) :
    prev * (1 - cfg.max_step) ≤ act cfg prev raw
    ∧ act cfg prev raw ≤ prev * (1 + cfg.max_step) := by
  have hlo : prev * (1 - cfg.max_step) ≤ prev := by nlinarith
  have hhi : prev ≤ prev * (1 + cfg.max_step) := by nlinarith
  unfold act
  constructor
  · exact le_clamp_of_le _ _ _ _ (le_clamp _ _ _) (le_trans hlo (le_trans h2 (le_refl _)))
  · exact clamp_le_of_le_left _ _ _ _ (le_trans h1 hhi)
      (clamp_le _ _ _ (le_trans hlo hhi))

theorem predictDemand_nonneg (cfg : Config) (m : ModelState ForecasterArtifact)
    (price ctx : ℚ) : 0 ≤ predictDemand cfg m price ctx := le_clamp _ _ _

theorem predictDemand_le_cap (cfg : Config) (m : ModelState ForecasterArtifact)
    (price ctx : ℚ) (h : 0 ≤ cfg.demand_cap) :
    predictDemand cfg m price ctx ≤ cfg.demand_cap := clamp_le _ _ _ h

theorem predict_demand_ok (cfg : Config) (s : ServerState) (price ctx : ℚ)
    (hp : 0 < price) :
    predict_demand cfg s price ctx
      = .ok { predicted_demand := predictDemand cfg s.forecaster price ctx
              price := price
              model_version := (modelVersion s).1 } := by
  unfold predict_demand
  rw [if_neg (not_le.mpr hp)]

theorem get_optimal_price_ok (cfg : Config) (s : ServerState) (base ctx : ℚ)
    (hb : 0 < base) :
    get_optimal_price cfg s base ctx
      = .ok { optimal_price := act cfg base (rawPolicyPrice s.policy base ctx)
              expected_revenue :=
                act cfg base (rawPolicyPrice s.policy base ctx)
                  * predictDemand cfg s.forecaster
                      (act cfg base (rawPolicyPrice s.policy base ctx)) ctx
              demand_forecast :=
                predictDemand cfg s.forecaster
                  (act cfg base (rawPolicyPrice s.policy base ctx)) ctx
              model_version := modelVersion s } := by
  unfold get_optimal_price
  rw [if_neg (not_le.mpr hb)]

end PricingCore

namespace PricingCore

/-! ### C1 — optimal price bounds and revenue identity -/

/-- C1: for every valid `base_price > 0`, and any active model state,
`get_optimal_price` succeeds with an `optimal_price` clamped into
`[min_price, max_price]` (regardless of the raw policy output) and an
`expected_revenue` exactly equal to `optimal_price × demand_forecast`
(exact over the rationals, so in particular within any floating-point
tolerance). -/
theorem c1_optimal_price_contract (cfg : Config) (s : ServerState)
    (base ctx : ℚ) (hrange : cfg.min_price ≤ cfg.max_price) (hb : 0 < base) :
    ∃ r : PricingDecision,
      get_optimal_price cfg s base ctx = .ok r
      ∧ cfg.min_price ≤ r.optimal_price
      ∧ r.optimal_price ≤ cfg.max_price
      ∧ r.expected_revenue = r.optimal_price * r.demand_forecast := by
  exact ⟨_, get_optimal_price_ok cfg s base ctx hb,
    act_ge_min cfg base _, act_le_max cfg base _ hrange, rfl⟩

/-- Concrete run of C1 at the documented configuration, cold-start state and
`base_price = 25`. -/
theorem c1_optimal_price_contract_witness :
    ∃ r : PricingDecision,
      get_optimal_price exampleCfg fallbackState 25 0 = .ok r
      ∧ exampleCfg.min_price ≤ r.optimal_price
      ∧ r.optimal_price ≤ exampleCfg.max_price
      ∧ r.expected_revenue = r.optimal_price * r.demand_forecast :=
  c1_optimal_price_contract exampleCfg fallbackState 25 0
    (by norm_num [exampleCfg]) (by norm_num)

/-! ### C2 — demand forecast clipped to `[0, demand_cap]` -/

/-- C2: for every valid `(price, context)` query (`price > 0`) and any active
model state, `predict_demand` succeeds and its output is clipped into
`[0, demand_cap]`. -/
theorem c2_predict_demand_clipped (cfg : Config) (s : ServerState)
    (price ctx : ℚ) (hcap : 0 ≤ cfg.demand_cap) (hp : 0 < price) :
    ∃ r : DemandResponse,
      predict_demand cfg s price ctx = .ok r
      ∧ 0 ≤ r.predicted_demand
      ∧ r.predicted_demand ≤ cfg.demand_cap := by
  exact ⟨_, predict_demand_ok cfg s price ctx hp,
    predictDemand_nonneg cfg s.forecaster price ctx,
    predictDemand_le_cap cfg s.forecaster price ctx hcap⟩

/-- Concrete run of C2 at the documented configuration, cold-start state and
`price = 49.99`. -/
theorem c2_predict_demand_clipped_witness :
    ∃ r : DemandResponse,
      predict_demand exampleCfg fallbackState (4999/100) 0 = .ok r
      ∧ 0 ≤ r.predicted_demand
      ∧ r.predicted_demand ≤ exampleCfg.demand_cap :=
  c2_predict_demand_clipped exampleCfg fallbackState (4999/100) 0
    (by norm_num [exampleCfg]) (by norm_num)

end PricingCore

namespace PricingCore

/-! ### C3 — rollback leaves active artifacts untouched -/

/-- C3: a retraining cycle whose candidate fails — training failure
(non-convergence, NaN loss, insufficient data) or a validation score
regressing beyond tolerance — leaves the active artifacts and the
`model_version` observed by inference unchanged. -/
theorem c3_rollback_atomic (cfg : Config) (s : ServerState) (o : TrainOutcome)
    (now : ℕ) (hfail : cycleFails cfg s o) :
    (runCycle cfg s o now).forecaster = s.forecaster
    ∧ (runCycle cfg s o now).policy = s.policy
    ∧ modelVersion (runCycle cfg s o now) = modelVersion s := by
  rcases hfail with h | ⟨f, p, score, ho, hc⟩
  · subst h
    by_cases hidle : s.status = CoordStatus.idle <;>
      simp [runCycle, hidle, modelVersion]
  · subst ho
    by_cases hidle : s.status = CoordStatus.idle <;>
      simp [runCycle, hidle, hc, modelVersion]

/-- Concrete run of C3: a training failure from the cold-start idle state
leaves forecaster, policy and model version untouched. -/
theorem c3_rollback_atomic_witness :
    (runCycle exampleCfg fallbackState .failure 7).forecaster
        = fallbackState.forecaster
    ∧ (runCycle exampleCfg fallbackState .failure 7).policy
        = fallbackState.policy
    ∧ modelVersion (runCycle exampleCfg fallbackState .failure 7)
        = modelVersion fallbackState :=
  c3_rollback_atomic exampleCfg fallbackState .failure 7 (Or.inl rfl)

/-! ### C4 — fallback inference never errors -/

/-- C4: with no trained artifact active (cold start or failed load), every
well-formed query still gets a well-formed, bounded response: the forecaster
answers through the deterministic heuristic clipped to `[0, demand_cap]`,
and the optimizer through the identity policy clamped to
`[min_price, max_price]` — neither endpoint surfaces an error. -/
theorem c4_fallback_total (cfg : Config) (s : ServerState)
    (base price ctx : ℚ) (_hf : s.forecaster = .fallback)
    (_hpol : s.policy = .fallback) (hrange : cfg.min_price ≤ cfg.max_price)
    (hcap : 0 ≤ cfg.demand_cap) (hp : 0 < price) (hb : 0 < base) :
    (∃ r : DemandResponse,
      predict_demand cfg s price ctx = .ok r
      ∧ 0 ≤ r.predicted_demand ∧ r.predicted_demand ≤ cfg.demand_cap)
    ∧ (∃ d : PricingDecision,
      get_optimal_price cfg s base ctx = .ok d
      ∧ cfg.min_price ≤ d.optimal_price
      ∧ d.optimal_price ≤ cfg.max_price
      ∧ 0 ≤ d.demand_forecast ∧ d.demand_forecast ≤ cfg.demand_cap) := by
  constructor
  · exact ⟨_, predict_demand_ok cfg s price ctx hp,
      predictDemand_nonneg cfg s.forecaster price ctx,
      predictDemand_le_cap cfg s.forecaster price ctx hcap⟩
  · exact ⟨_, get_optimal_price_ok cfg s base ctx hb,
      act_ge_min cfg base _, act_le_max cfg base _ hrange,
      predictDemand_nonneg cfg s.forecaster _ ctx,
      predictDemand_le_cap cfg s.forecaster _ ctx hcap⟩

/-- Concrete run of C4 at the documented configuration and cold-start state:
both endpoints answer, bounded. -/
theorem c4_fallback_total_witness :
    (∃ r : DemandResponse,
      predict_demand exampleCfg fallbackState 30 0 = .ok r
      ∧ 0 ≤ r.predicted_demand
      ∧ r.predicted_demand ≤ exampleCfg.demand_cap)
    ∧ (∃ d : PricingDecision,
      get_optimal_price exampleCfg fallbackState 25 0 = .ok d
      ∧ exampleCfg.min_price ≤ d.optimal_price
      ∧ d.optimal_price ≤ exampleCfg.max_price
      ∧ 0 ≤ d.demand_forecast ∧ d.demand_forecast ≤ exampleCfg.demand_cap) :=
  c4_fallback_total exampleCfg fallbackState 25 30 0 rfl rfl
    (by norm_num [exampleCfg]) (by norm_num [exampleCfg])
    (by norm_num) (by norm_num)

end PricingCore

namespace PricingCore

/-! ### C5 — retraining trigger at the feedback threshold -/

/-- C5: with the deployed threshold of 100 feedback records and no scheduled
time boundary pending, a scheduling check moves the coordinator out of `idle`
exactly when the pending feedback count has reached the threshold: at 100
records it transitions to `training`, at 99 it stays put. -/
theorem c5_threshold_trigger (cfg : Config) (s : ServerState)
    (hidle : s.status = CoordStatus.idle) (hth : cfg.threshold = 100) :
    ((schedulingCheck cfg s false).status = CoordStatus.training
        ↔ 100 ≤ s.pending_feedback_count)
    ∧ (s.pending_feedback_count = 100 →
        (schedulingCheck cfg s false).status = CoordStatus.training)
    ∧ (s.pending_feedback_count = 99 → schedulingCheck cfg s false = s) := by
  have hmain : (schedulingCheck cfg s false).status = CoordStatus.training
      ↔ 100 ≤ s.pending_feedback_count := by
    by_cases hc : 100 ≤ s.pending_feedback_count
    · simp [schedulingCheck, shouldRetrain, hidle, hth, hc]
    · simp [schedulingCheck, shouldRetrain, hidle, hth, hc]
  refine ⟨hmain, ?_, ?_⟩
  · intro h
    exact hmain.mpr (by omega)
  · intro h
    have hc : ¬ 100 ≤ s.pending_feedback_count := by omega
    simp [schedulingCheck, shouldRetrain, hth, hc]

/-- Concrete run of C5: from the cold-start idle state, 100 pending records
trigger training and 99 do not. -/
theorem c5_threshold_trigger_witness :
    ((schedulingCheck exampleCfg
        { fallbackState with pending_feedback_count := 100 } false).status
          = CoordStatus.training
      ↔ 100 ≤ ({ fallbackState with
            pending_feedback_count := 100 } : ServerState).pending_feedback_count)
    ∧ (({ fallbackState with
          pending_feedback_count := 100 } : ServerState).pending_feedback_count
            = 100 →
        (schedulingCheck exampleCfg
          { fallbackState with pending_feedback_count := 100 } false).status
            = CoordStatus.training)
    ∧ (({ fallbackState with
          pending_feedback_count := 100 } : ServerState).pending_feedback_count
            = 99 →
        schedulingCheck exampleCfg
            { fallbackState with pending_feedback_count := 100 } false
          = { fallbackState with pending_feedback_count := 100 }) :=
  c5_threshold_trigger exampleCfg
    { fallbackState with pending_feedback_count := 100 } rfl rfl

/-! ### C7 — deterministic inference -/

/-- C7: `get_optimal_price` is a pure function of the query and the active
artifacts: two calls with identical inputs evaluated against the same active
model snapshot return identical outputs, whatever the rest of the server
state (feedback counters, coordinator status) does in between. -/
theorem c7_inference_deterministic (cfg : Config) (s1 s2 : ServerState)
    (base ctx : ℚ) (hf : s1.forecaster = s2.forecaster)
    (hp : s1.policy = s2.policy) :
    get_optimal_price cfg s1 base ctx = get_optimal_price cfg s2 base ctx := by
  unfold get_optimal_price modelVersion
  rw [hf, hp]

/-- Concrete run of C7: the cold-start state and the same state after 42
feedback records (same artifacts) price identically. -/
theorem c7_inference_deterministic_witness :
    get_optimal_price exampleCfg fallbackState 25 0
      = get_optimal_price exampleCfg
          { fallbackState with
            pending_feedback_count := 42
            status := CoordStatus.training } 25 0 :=
  c7_inference_deterministic exampleCfg fallbackState
    { fallbackState with
      pending_feedback_count := 42
      status := CoordStatus.training } 25 0 rfl rfl

end PricingCore

namespace PricingCore

/-! ### C6 — price stability along a sequence of decisions -/

/-- C6: along any sequence of optimizer decisions threaded through the
safety net (each decision taking the previous one as its step reference),
each consecutive relative price change is bounded by `max_step`
(stated multiplicatively: `|p_next − p| ≤ max_step · p`, with every `p`
positive since prices stay in `[min_price, max_price]`); and at the
documented configuration (`bounds [5, 500]`, `max_step = 0.5`) the first
optimal price for `base_price = 25` from a cold context lies in
`[12.5, 37.5]` whatever the model state. -/
theorem c6_price_stability (cfg : Config) (base : ℚ) (raws : List ℚ)
    (hmin : 0 < cfg.min_price) (hrange : cfg.min_price ≤ cfg.max_price)
    (hs : 0 ≤ cfg.max_step) (hb1 : cfg.min_price ≤ base)
    (hb2 : base ≤ cfg.max_price) :
    List.Chain (fun p q => |q - p| ≤ cfg.max_step * p) base
      (decisions cfg base raws)
    ∧ ∀ (s : ServerState) (ctx : ℚ),
        ∃ r : PricingDecision,
          get_optimal_price exampleCfg s 25 ctx = .ok r
          ∧ 25/2 ≤ r.optimal_price ∧ r.optimal_price ≤ 75/2 := by
  constructor
  · induction raws generalizing base with
    | nil => exact List.Chain.nil
    | cons r rs ih =>
        have h0 : 0 ≤ base := le_trans (le_of_lt hmin) hb1
        obtain ⟨hl, hr⟩ := act_step_bounds cfg base r h0 hs hb1 hb2
        have hchain := ih (act cfg base r) (act_ge_min cfg base r)
          (act_le_max cfg base r hrange)
        refine List.Chain.cons ?_ hchain
        rw [abs_sub_le_iff]
        constructor <;> nlinarith
  · intro s ctx
    obtain ⟨hl, hr⟩ := act_step_bounds exampleCfg 25
      (rawPolicyPrice s.policy 25 ctx) (by norm_num)
      (by norm_num [exampleCfg]) (by norm_num [exampleCfg])
      (by norm_num [exampleCfg])
    refine ⟨_, get_optimal_price_ok exampleCfg s 25 ctx (by norm_num), ?_, ?_⟩
    · calc (25/2 : ℚ) = 25 * (1 - exampleCfg.max_step) := by
            norm_num [exampleCfg]
        _ ≤ _ := hl
    · calc act exampleCfg 25 (rawPolicyPrice s.policy 25 ctx)
          ≤ 25 * (1 + exampleCfg.max_step) := hr
        _ = 75/2 := by norm_num [exampleCfg]

/-- Concrete run of C6: the trajectory from base 25 through raw policy
outputs `[40, 10]` at the documented configuration respects the step bound,
and the first cold-context decision is bounded in `[12.5, 37.5]`. -/
theorem c6_price_stability_witness :
    List.Chain (fun p q => |q - p| ≤ exampleCfg.max_step * p) 25
      (decisions exampleCfg 25 [40, 10])
    ∧ ∀ (s : ServerState) (ctx : ℚ),
        ∃ r : PricingDecision,
          get_optimal_price exampleCfg s 25 ctx = .ok r
          ∧ 25/2 ≤ r.optimal_price ∧ r.optimal_price ≤ 75/2 :=
  c6_price_stability exampleCfg 25 [40, 10] (by norm_num [exampleCfg])
    (by norm_num [exampleCfg]) (by norm_num [exampleCfg])
    (by norm_num [exampleCfg]) (by norm_num [exampleCfg])

end PricingCore
